import Mathlib

/-!
Shallow embedding of `cli/src/semgrep/formatter/sarif.py` (the SARIF formatter
of semgrep) and verification of its specification claims.

Python dictionaries are modelled by a small JSON tree type (`Json`); the final
`json.dumps(..., sort_keys=True, indent=2)` is modelled by `Json.dumps`, which
renders object keys in sorted order with 2-space indentation.  Python strings
are Lean `String`s; `str.strip`, `str.rstrip("\n")`, `str.lstrip("\n")` and
`str.lower` are modelled by the helpers below, working on the character list of
the string so that all definitions reduce in the kernel.
-/

namespace SarifFormatter

/-- Models Python `s.rstrip("\n")`: drop every trailing newline character. -/
def rstrip_newlines (s : String) : String :=
  String.mk ((s.data.reverse.dropWhile (fun c => c = '\n')).reverse)

/-- Models Python `s.lstrip("\n")`: drop every leading newline character. -/
def lstrip_newlines (s : String) : String :=
  String.mk (s.data.dropWhile (fun c => c = '\n'))

/-- Models Python `s.rstrip()`: drop trailing whitespace. -/
def rstrip_whitespace (s : String) : String :=
  String.mk ((s.data.reverse.dropWhile Char.isWhitespace).reverse)

/-- Models Python `s.strip()`: drop leading and trailing whitespace. -/
def py_strip (s : String) : String :=
  String.mk ((((s.data.dropWhile Char.isWhitespace).reverse).dropWhile
    Char.isWhitespace).reverse)

/-- Models Python `s.lower()` (only ASCII letters occur in the inputs used). -/
def py_lower (s : String) : String :=
  String.mk (s.data.map Char.toLower)

/-- A source file is a list of lines; each line keeps its trailing newline,
exactly as Python file iteration yields them.  A `FileSystem` maps a path to
the lines of the file stored there. -/
def FileSystem : Type := String → List String

/-- Modelled from the spec: `semgrep.util.get_lines` is not under `src/`; the
spec file-system contract says "read lines [a,b] of file at path p, returning
available lines even if the range partly exceeds file length" (1-indexed,
inclusive on both ends). -/
def get_lines (fs : FileSystem) (path : String) (start_line end_line : Int) :
    List String :=
  ((fs path).enum.filter
    (fun p => decide (start_line ≤ (p.1 : Int) + 1) &&
              decide ((p.1 : Int) + 1 ≤ end_line))).map Prod.snd

/-- `out.Position`: line and column of a source position (both 1-based). -/
structure Position where
  line : Nat
  col : Nat
deriving DecidableEq, Repr

/-- `out.Location`: a file path together with a start and end position.
`location.path.value` of the Python object is the `path` string here; the
Python attribute `end` is spelled `end_` because `end` is a Lean keyword. -/
structure Location where
  path : String
  start : Position
  end_ : Position
deriving DecidableEq, Repr

/-- `_generate_taint_snippet`: join lines `[start.line, end.line + 2]` with the
trailing newlines stripped, prepend lines `[start.line - 2, end.line - 1]` with
a leading newline stripped, and report highlight offsets computed from the
length of the prepended text plus the start/end columns. -/
def generate_taint_snippet (fs : FileSystem) (location : Location) :
    String × Nat × Nat :=
  let content := rstrip_newlines (String.join
    (get_lines fs location.path (location.start.line : Int)
      ((location.end_.line : Int) + 2)))
  let snippet_before := lstrip_newlines (String.join
    (get_lines fs location.path ((location.start.line : Int) - 2)
      ((location.end_.line : Int) - 1)))
  let start_highlight := snippet_before.length + location.start.col
  let end_highlight := snippet_before.length + location.end_.col
  (snippet_before ++ content, start_highlight, end_highlight)

/-- Following the claim wording (spec 4.1), for comparison with the code: the
extended snippet is the 2 lines before the span (leading newline stripped)
concatenated with the span itself and the 2 lines after it (trailing newline
stripped); the highlight offsets are the length of the before-text plus the
start/end columns of the span. -/
def claimed_taint_snippet (fs : FileSystem) (location : Location) :
    String × Nat × Nat :=
  let snippet_before := lstrip_newlines (String.join
    (get_lines fs location.path ((location.start.line : Int) - 2)
      ((location.start.line : Int) - 1)))
  let content := rstrip_newlines (String.join
    (get_lines fs location.path (location.start.line : Int)
      ((location.end_.line : Int) + 2)))
  (snippet_before ++ content,
   snippet_before.length + location.start.col,
   snippet_before.length + location.end_.col)

/-- Lexicographic (code-point) comparison of character lists, the order Python
uses to compare strings. -/
def chars_le : List Char → List Char → Bool
  | [], _ => true
  | _ :: _, [] => false
  | a :: as, b :: bs => if a < b then true else if b < a then false else chars_le as bs

/-- Python string comparison `a <= b`: lexicographic on code points. -/
def py_str_le (a b : String) : Prop := chars_le a.data b.data = true

instance : DecidableRel py_str_le :=
  fun a b => inferInstanceAs (Decidable (chars_le a.data b.data = true))

instance : IsTotal String py_str_le := by
  constructor
  intro a b
  unfold py_str_le
  generalize a.data = as
  generalize b.data = bs
  induction as generalizing bs with
  | nil => left; rfl
  | cons a as ih =>
    cases bs with
    | nil => right; rfl
    | cons b bs =>
      by_cases h1 : a < b
      · left; simp [chars_le, h1]
      · by_cases h2 : b < a
        · right; simp [chars_le, h2]
        · rcases ih bs with h | h
          · left; simp [chars_le, h1, h2, h]
          · right; simp [chars_le, h1, h2, h]

instance : IsTrans String py_str_le := by
  constructor
  intro a b c
  unfold py_str_le
  generalize a.data = as
  generalize b.data = bs
  generalize c.data = cs
  induction as generalizing bs cs with
  | nil => intro _ _; rfl
  | cons a as ih =>
    intro h1 h2
    cases bs with
    | nil => simp [chars_le] at h1
    | cons b bs =>
      cases cs with
      | nil => simp [chars_le] at h2
      | cons c cs =>
        simp only [chars_le] at h1 h2 ⊢
        by_cases hab : a < b
        · by_cases hbc : b < c
          · simp [lt_trans hab hbc]
          · by_cases hcb : c < b
            · simp [hbc, hcb] at h2
            · have : b = c := le_antisymm (not_lt.mp hcb) (not_lt.mp hbc)
              subst this
              simp [hab]
        · by_cases hba : b < a
          · simp [hab, hba] at h1
          · have : a = b := le_antisymm (not_lt.mp hba) (not_lt.mp hab)
            subst this
            simp only [lt_irrefl, if_false] at h1
            by_cases hac : a < c
            · simp [hac]
            · by_cases hca : c < a
              · simp [hac, hca] at h2
              · simp only [lt_irrefl, hac, hca, if_false] at h2 ⊢
                exact ih bs cs h1 h2

instance : IsAntisymm String py_str_le := by
  constructor
  have key : ∀ as bs : List Char, chars_le as bs = true → chars_le bs as = true →
      as = bs := by
    intro as
    induction as with
    | nil =>
      intro bs _ h2
      cases bs with
      | nil => rfl
      | cons b bs => simp [chars_le] at h2
    | cons a as ih =>
      intro bs h1 h2
      cases bs with
      | nil => simp [chars_le] at h1
      | cons b bs =>
        simp only [chars_le] at h1 h2
        by_cases hab : a < b
        · simp [hab, asymm hab] at h2
        · by_cases hba : b < a
          · simp [hab, hba] at h1
          · have : a = b := le_antisymm (not_lt.mp hba) (not_lt.mp hab)
            subst this
            simp only [lt_irrefl, if_false] at h1 h2
            rw [ih bs h1 h2]
  intro a b h1 h2
  cases a with
  | mk da =>
    cases b with
    | mk db =>
      have := key da db h1 h2
      rw [this]

instance : IsTotal (String × String) (fun p q => py_str_le p.1 q.1) :=
  ⟨fun a b => IsTotal.total (r := py_str_le) a.1 b.1⟩

instance : IsTrans (String × String) (fun p q => py_str_le p.1 q.1) :=
  ⟨fun _ _ _ h1 h2 => IsTrans.trans (r := py_str_le) _ _ _ h1 h2⟩

instance : DecidableRel (fun p q : String × String => py_str_le p.1 q.1) :=
  fun p q => inferInstanceAs (Decidable (py_str_le p.1 q.1))

instance : IsAntisymm (String × String) (fun p q => py_str_le p.1 q.1 ∧ p.1 ≠ q.1) :=
  ⟨fun _ _ h1 h2 => absurd (antisymm h1.1 h2.1) h1.2⟩

/-- JSON values, modelling the Python dictionaries/lists/strings the formatter
builds.  Objects keep their key/value pairs in Python insertion order; key
sorting happens in `Json.dumps`, exactly as `json.dumps(sort_keys=True)`. -/
inductive Json where
  | null : Json
  | bool (b : Bool) : Json
  | num (n : Int) : Json
  | str (s : String) : Json
  | arr (xs : List Json) : Json
  | obj (kvs : List (String × Json)) : Json
deriving Repr

/-- Look a key up in a JSON object (first occurrence), `none` otherwise. -/
def Json.getKey (j : Json) (k : String) : Option Json :=
  match j with
  | .obj kvs => ((kvs.filter (fun p => p.1 = k)).map Prod.snd).head?
  | _ => none

/-- Follow a path of keys through nested JSON objects. -/
def Json.getPath : Json → List String → Option Json
  | j, [] => some j
  | j, k :: ks =>
    match j.getKey k with
    | some v => v.getPath ks
    | none => none

/-- Drop a key from a JSON object (other values are returned unchanged). -/
def Json.eraseKey (j : Json) (k : String) : Json :=
  match j with
  | .obj kvs => .obj (kvs.filter (fun p => !(p.1 == k)))
  | j => j

/-- Escape a character for a JSON string literal. -/
def escape_char (c : Char) : String :=
  if c = '\\' then "\\\\"
  else if c = '"' then "\\\""
  else if c = '\n' then "\\n"
  else String.mk [c]

/-- Escape a string for a JSON string literal. -/
def escape_string (s : String) : String :=
  String.join (s.data.map escape_char)

/-- `n` spaces of indentation. -/
def indent_spaces (n : Nat) : String :=
  String.mk (List.replicate n ' ')

/-- Sort rendered key/value pairs by key, as `json.dumps(sort_keys=True)`. -/
def sort_pairs (l : List (String × String)) : List (String × String) :=
  List.insertionSort (fun p q => py_str_le p.1 q.1) l

mutual

/-- Serialize a JSON value the way `json.dumps(obj, sort_keys=True, indent=2)`
does: object keys sorted, each nesting level indented by two more spaces. -/
def Json.dumps (ind : Nat) : Json → String
  | .null => "null"
  | .bool b => if b then "true" else "false"
  | .num n => toString n
  | .str s => "\"" ++ escape_string s ++ "\""
  | .arr xs =>
    let rendered := Json.dumpsList (ind + 2) xs
    if rendered.isEmpty then "[]"
    else
      "[\n" ++
      String.intercalate ",\n" (rendered.map (fun s => indent_spaces (ind + 2) ++ s)) ++
      "\n" ++ indent_spaces ind ++ "]"
  | .obj kvs =>
    let rendered := Json.dumpsPairs (ind + 2) kvs
    if rendered.isEmpty then "\x7b\x7d"
    else
      "\x7b\n" ++
      String.intercalate ",\n" ((sort_pairs rendered).map
        (fun p => indent_spaces (ind + 2) ++ "\"" ++ escape_string p.1 ++ "\": " ++ p.2)) ++
      "\n" ++ indent_spaces ind ++ "\x7d"

/-- Render every element of a JSON array. -/
def Json.dumpsList (ind : Nat) : List Json → List String
  | [] => []
  | x :: xs => Json.dumps ind x :: Json.dumpsList ind xs

/-- Render the value of every key/value pair of a JSON object. -/
def Json.dumpsPairs (ind : Nat) : List (String × Json) → List (String × String)
  | [] => []
  | (k, v) :: xs => (k, Json.dumps ind v) :: Json.dumpsPairs ind xs

end

/-- `out.CliMatchIntermediateVar`: a propagation step with its own location and
matched content. -/
structure IntermediateVar where
  location : Location
  content : String
deriving DecidableEq, Repr

/-- The union of taint-trace objects navigated by
`_rec_taint_obj_to_thread_flow_locations_sarif`: the spec 3 `TaintTraceNode`.
`CliMatchCallTrace` is the Wrapper (its `value` is the wrapped node), `CliLoc`
is a Leaf (`value[0]` is the location, `value[1]` the content string), and
`CliCall` is a Call (`value[0]` is the call-site location and content,
`value[1]` the intermediate variables, `value[2]` the nested call trace).
These classes come from `semgrep_output_v1` (not under `src/`). -/
inductive TaintObj where
  | CliMatchCallTrace (value : TaintObj) : TaintObj
  | CliLoc (location : Location) (content : String) : TaintObj
  | CliCall (location : Location) (content : String)
      (intermediate_vars : List IntermediateVar) (call_trace : TaintObj) : TaintObj

/-- `out.CliMatchDataflowTrace`: optional taint source, optional intermediate
variables, optional taint sink. -/
structure CliMatchDataflowTrace where
  taint_source : Option TaintObj
  intermediate_vars : Option (List IntermediateVar)
  taint_sink : Option TaintObj

/-- The fields of `semgrep.rule_match.RuleMatch` read by the formatter (the
class itself is not under `src/`).  `extra.get("fixed_lines")` is modelled by
the `fixed_lines` field. -/
structure RuleMatch where
  rule_id : String
  message : String
  path : String
  start : Position
  end_ : Position
  lines : List String
  match_based_id : String
  dataflow_trace : Option CliMatchDataflowTrace
  is_ignored : Bool
  fixed_lines : Option (List String)
  exposure_type : Option String

/-- `_create_sarif_location_dict`: build one thread-flow location dictionary.
The `nestingLevel` key is only included when the `nesting_level` argument is
not the `-1` sentinel default. -/
def create_sarif_location_dict (fs : FileSystem) (var_type snippet : String)
    (location : Location) (rule_match : RuleMatch) (nesting_level : Int) : Json :=
  let message := var_type ++ ": \x27" ++ py_strip snippet ++ "\x27 @ \x27" ++
    location.path ++ ":" ++ toString location.start.line ++ "\x27"
  match generate_taint_snippet fs location with
  | (extended_snippet, start_highlight, end_highlight) =>
    let base : List (String × Json) :=
      [("location", Json.obj
        [("message", Json.obj [("text", Json.str message)]),
         ("physicalLocation", Json.obj
           [("artifactLocation", Json.obj [("uri", Json.str rule_match.path)]),
            ("region", Json.obj
              [("startLine", Json.num location.start.line),
               ("startColumn", Json.num start_highlight),
               ("endLine", Json.num location.end_.line),
               ("endColumn", Json.num end_highlight),
               ("snippet", Json.obj [("text", Json.str extended_snippet)]),
               ("message", Json.obj [("text", Json.str message)])])])])]
    Json.obj (if nesting_level ≠ -1 then base ++ [("nestingLevel", Json.num nesting_level)]
              else base)

/-- `_taint_obj_intermediate_vars_to_thread_flow_locations_sarif`: one
Propagator location (nesting level 0) for an intermediate variable.  Python
joins `intermediate_var.content` over itself, which is the identity on a
string. -/
def taint_obj_intermediate_vars_to_thread_flow_locations_sarif
    (fs : FileSystem) (intermediate_var : IntermediateVar)
    (rule_match : RuleMatch) : Json :=
  create_sarif_location_dict fs "Propagator " intermediate_var.content
    intermediate_var.location rule_match 0

/-- `_rec_taint_obj_to_thread_flow_locations_sarif`: flatten a taint object
into thread-flow locations.  A Wrapper contributes only its wrapped content
(the final `isinstance` chain falls through to `return taint_trace`); a Call
first recurses into `value[2]`, then appends its intermediate variables, then
its own call-site location with `var_type` reassigned to `"Propagator "`; a
Leaf appends one location.  When the (possibly reassigned) `var_type` lowers
to `"sink"` the nesting level becomes 1 and the snippet is replaced by the
joined lines of the enclosing match. -/
def rec_taint_obj_to_thread_flow_locations_sarif (fs : FileSystem)
    (var_type : String) (taint_obj : TaintObj) (rule_match : RuleMatch) :
    List Json :=
  match taint_obj with
  | .CliMatchCallTrace value =>
    rec_taint_obj_to_thread_flow_locations_sarif fs var_type value rule_match
  | .CliLoc location content =>
    let snippet := content
    let nesting_level : Int := if py_lower var_type = "sink" then 1 else 0
    let snippet := if py_lower var_type = "sink" then String.join rule_match.lines
                   else snippet
    [create_sarif_location_dict fs var_type snippet location rule_match nesting_level]
  | .CliCall location content intermediate_vars call_trace =>
    let taint_trace :=
      rec_taint_obj_to_thread_flow_locations_sarif fs var_type call_trace rule_match ++
      intermediate_vars.map (fun iv =>
        taint_obj_intermediate_vars_to_thread_flow_locations_sarif fs iv rule_match)
    let var_type := "Propagator "
    let snippet := content
    let nesting_level : Int := if py_lower var_type = "sink" then 1 else 0
    let snippet := if py_lower var_type = "sink" then String.join rule_match.lines
                   else snippet
    taint_trace ++
      [create_sarif_location_dict fs var_type snippet location rule_match nesting_level]

/-- `_taint_source_to_thread_flow_locations_sarif`: flatten the taint source,
`None` when the match has no dataflow trace or the trace has no source. -/
def taint_source_to_thread_flow_locations_sarif (fs : FileSystem)
    (rule_match : RuleMatch) : Option (List Json) :=
  match rule_match.dataflow_trace with
  | none => none
  | some dataflow_trace =>
    match dataflow_trace.taint_source with
    | none => none
    | some taint_source =>
      some (rec_taint_obj_to_thread_flow_locations_sarif fs "Source" taint_source
        rule_match)

/-- `_intermediate_vars_to_thread_flow_locations_sarif`: one Propagator
location per intermediate variable of the trace; `None` when the trace or the
(possibly empty, hence falsy) variable list is absent. -/
def intermediate_vars_to_thread_flow_locations_sarif (fs : FileSystem)
    (rule_match : RuleMatch) : Option (List Json) :=
  match rule_match.dataflow_trace with
  | none => none
  | some dataflow_trace =>
    match dataflow_trace.intermediate_vars with
    | none => none
    | some intermediate_vars =>
      if intermediate_vars.isEmpty then none
      else some (intermediate_vars.map (fun iv =>
        create_sarif_location_dict fs "Propagator " iv.content iv.location
          rule_match 0))

/-- `_dataflow_trace_to_thread_flows_sarif`: source locations, then
intermediate-variable locations, then the reversed flattening of the sink
(`None` falls through every `isinstance` check and contributes nothing),
wrapped as a single-element thread-flow list.  The `.getD []` defaults model
the Python `+=` of helper results that the surrounding truthiness guards have
already proven to be lists. -/
def dataflow_trace_to_thread_flows_sarif (fs : FileSystem)
    (rule_match : RuleMatch) : Option (List Json) :=
  match rule_match.dataflow_trace with
  | none => none
  | some dataflow_trace =>
    let locations : List Json :=
      match dataflow_trace.taint_source with
      | none => []
      | some _ => (taint_source_to_thread_flow_locations_sarif fs rule_match).getD []
    let locations := locations ++
      (match dataflow_trace.intermediate_vars with
       | none => []
       | some intermediate_vars =>
         if intermediate_vars.isEmpty then []
         else (intermediate_vars_to_thread_flow_locations_sarif fs rule_match).getD [])
    let sink_thread_trace :=
      (match dataflow_trace.taint_sink with
       | none => []
       | some taint_sink =>
         rec_taint_obj_to_thread_flow_locations_sarif fs "Sink" taint_sink
           rule_match).reverse
    let locations := locations ++ sink_thread_trace
    some [Json.obj [("locations", Json.arr locations)]]

/-- The location `_dataflow_trace_to_codeflow_sarif` reads from
`taint_source.value`: defined when the source is a Wrapper around a Call or a
Leaf (any other shape leaves the Python variable `location` unbound). -/
def taint_source_value_location : TaintObj → Option Location
  | .CliMatchCallTrace (.CliCall location _ _ _) => some location
  | .CliMatchCallTrace (.CliLoc location _) => some location
  | _ => none

/-- `_dataflow_trace_to_codeflow_sarif`: a code flow with the summary message,
plus a `threadFlows` key whenever `_dataflow_trace_to_thread_flows_sarif`
returns a truthy (non-`None`, non-empty) list. -/
def dataflow_trace_to_codeflow_sarif (fs : FileSystem)
    (rule_match : RuleMatch) : Option Json :=
  match rule_match.dataflow_trace with
  | none => none
  | some dataflow_trace =>
    match dataflow_trace.taint_source with
    | none => none
    | some taint_source =>
      match taint_source_value_location taint_source with
      | none => none
      | some location =>
        let code_flow_sarif : List (String × Json) :=
          [("message", Json.obj [("text", Json.str
            ("Untrusted dataflow from " ++ location.path ++ ":" ++
             toString location.start.line ++ " to " ++ rule_match.path ++ ":" ++
             toString rule_match.start.line))])]
        match dataflow_trace_to_thread_flows_sarif fs rule_match with
        | some thread_flows =>
          if thread_flows.isEmpty then some (Json.obj code_flow_sarif)
          else some (Json.obj (code_flow_sarif ++
            [("threadFlows", Json.arr thread_flows)]))
        | none => some (Json.obj code_flow_sarif)

/-- `_rule_match_to_sarif_fix`: a fix block when the match carries truthy
(present and non-empty) fixed lines. -/
def rule_match_to_sarif_fix (rule_match : RuleMatch) : Option Json :=
  match rule_match.fixed_lines with
  | none => none
  | some fixed_lines =>
    if fixed_lines.isEmpty then none
    else
      let description := "Semgrep rule suggested fix"
      let description_text := rule_match.message ++ "\n Autofix: " ++ description
      some (Json.obj
        [("description", Json.obj [("text", Json.str description_text)]),
         ("artifactChanges", Json.arr
           [Json.obj
             [("artifactLocation", Json.obj [("uri", Json.str rule_match.path)]),
              ("replacements", Json.arr
                [Json.obj
                  [("deletedRegion", Json.obj
                     [("startLine", Json.num rule_match.start.line),
                      ("startColumn", Json.num rule_match.start.col),
                      ("endLine", Json.num rule_match.end_.line),
                      ("endColumn", Json.num rule_match.end_.col)]),
                   ("insertedContent", Json.obj
                     [("text", Json.str (String.intercalate "\n" fixed_lines))])]])]])])

/-- `_rule_match_to_sarif`: one SARIF result record.  The `properties` value is
written at the end in Python but keeps its original dictionary position, so it
is computed inline here; `codeFlows`, `suppressions` and `fixes` are appended
in that (Python insertion) order when their conditions hold. -/
def rule_match_to_sarif (fs : FileSystem) (rule_match : RuleMatch)
    (dataflow_traces : Bool) : Json :=
  let properties : List (String × Json) :=
    match rule_match.exposure_type with
    | some exposure => if exposure = "" then [] else [("exposure", Json.str exposure)]
    | none => []
  let rule_match_sarif : List (String × Json) :=
    [("ruleId", Json.str rule_match.rule_id),
     ("message", Json.obj [("text", Json.str rule_match.message)]),
     ("locations", Json.arr
       [Json.obj
         [("physicalLocation", Json.obj
           [("artifactLocation", Json.obj
              [("uri", Json.str rule_match.path),
               ("uriBaseId", Json.str "%SRCROOT%")]),
            ("region", Json.obj
              [("snippet", Json.obj
                 [("text", Json.str (rstrip_whitespace (String.join rule_match.lines)))]),
               ("startLine", Json.num rule_match.start.line),
               ("startColumn", Json.num rule_match.start.col),
               ("endLine", Json.num rule_match.end_.line),
               ("endColumn", Json.num rule_match.end_.col)])])]]),
     ("fingerprints", Json.obj [("matchBasedId/v1", Json.str rule_match.match_based_id)]),
     ("properties", Json.obj properties)]
  let rule_match_sarif :=
    if dataflow_traces && rule_match.dataflow_trace.isSome then
      match dataflow_trace_to_codeflow_sarif fs rule_match with
      | some code_flows => rule_match_sarif ++ [("codeFlows", Json.arr [code_flows])]
      | none => rule_match_sarif
    else rule_match_sarif
  let rule_match_sarif :=
    if rule_match.is_ignored then
      rule_match_sarif ++ [("suppressions", Json.arr [Json.obj [("kind", Json.str "inSource")]])]
    else rule_match_sarif
  let rule_match_sarif :=
    match rule_match_to_sarif_fix rule_match with
    | some fix => rule_match_sarif ++ [("fixes", Json.arr [fix])]
    | none => rule_match_sarif
  Json.obj rule_match_sarif

/-- Modelled from the spec: `semgrep.constants.RuleSeverity` is not under
`src/`; spec 3 describes the severity as "enum: INFO/WARNING/ERROR". -/
inductive RuleSeverity where
  | INFO : RuleSeverity
  | WARNING : RuleSeverity
  | ERROR : RuleSeverity
deriving DecidableEq, Repr

/-- A metadata value that Python treats with `isinstance(x, list)`: either a
single string or a list of strings. -/
inductive StrOrList where
  | str (s : String) : StrOrList
  | list (l : List String) : StrOrList
deriving DecidableEq, Repr

/-- The `"semgrep.policy"` metadata sub-dictionary; only its `"slug"` key is
read. -/
structure SemgrepPolicy where
  slug : Option String
deriving DecidableEq, Repr

/-- The free-form `rule.metadata` dictionary, modelled by one optional typed
field per key the formatter reads (spec 9 design note). -/
structure RuleMetadata where
  cwe : Option StrOrList
  owasp : Option StrOrList
  confidence : Option String
  semgrep_policy : Option SemgrepPolicy
  tags : Option (List String)
  security_severity : Option String
  source : Option String
  references : Option StrOrList
  shortDescription : Option String
  help : Option String
deriving DecidableEq, Repr

/-- The fields of `semgrep.rule.Rule` read by the formatter (the class itself
is not under `src/`). -/
structure Rule where
  id : String
  message : String
  severity : RuleSeverity
  metadata : RuleMetadata

/-- The dictionary literal inside `_rule_to_sarif_severity`. -/
def rule_to_sarif_severity_mapping : List (RuleSeverity × String) :=
  [(RuleSeverity.INFO, "note"),
   (RuleSeverity.WARNING, "warning"),
   (RuleSeverity.ERROR, "error")]

/-- `_rule_to_sarif_severity`: look the severity up in the mapping; `none`
models the `KeyError` Python raises for a severity outside the mapping. -/
def rule_to_sarif_severity (rule : Rule) : Option String :=
  ((rule_to_sarif_severity_mapping.filter (fun p => p.1 = rule.severity)).map
    Prod.snd).head?

/-- Python `sorted(set(l))` on strings: distinct elements in lexicographic
(code-point) order. -/
def sorted_set (l : List String) : List String :=
  List.insertionSort py_str_le l.dedup

/-- `_rule_to_sarif_tags`: collect CWE identifiers plus `"security"`, OWASP
tags, a confidence tag, a policy slug and the free-form metadata tags, then
deduplicate and sort. -/
def rule_to_sarif_tags (rule : Rule) : List String :=
  let result : List String := []
  let result :=
    match rule.metadata.cwe with
    | some cwe =>
      (result ++ (match cwe with | .list l => l | .str s => [s])) ++ ["security"]
    | none => result
  let result :=
    match rule.metadata.owasp with
    | some owasp =>
      result ++ (match owasp with
        | .list l => l.map (fun o => "OWASP-" ++ o)
        | .str s => ["OWASP-" ++ s])
    | none => result
  let result :=
    match rule.metadata.confidence with
    | some confidence =>
      if confidence = "" then result else result ++ [confidence ++ " CONFIDENCE"]
    | none => result
  let result :=
    match rule.metadata.semgrep_policy with
    | some policy =>
      match policy.slug with
      | some slug => result ++ [slug]
      | none => result
    | none => result
  let result := result ++ (rule.metadata.tags.getD [])
  sorted_set result

/-- Following the claim wording (spec 4.4), for comparison with the code: the
tags are exactly the sorted duplicate-free union of the CWE identifiers, the
`OWASP-` tags, the confidence tag, the policy slug and the free-form metadata
tags -- and nothing else. -/
def claimed_rule_tags (rule : Rule) : List String :=
  sorted_set
    ((match rule.metadata.cwe with
      | some cwe => (match cwe with | .list l => l | .str s => [s])
      | none => []) ++
     (match rule.metadata.owasp with
      | some owasp =>
        (match owasp with
         | .list l => l.map (fun o => "OWASP-" ++ o)
         | .str s => ["OWASP-" ++ s])
      | none => []) ++
     (match rule.metadata.confidence with
      | some confidence =>
        if confidence = "" then [] else [confidence ++ " CONFIDENCE"]
      | none => []) ++
     (match rule.metadata.semgrep_policy with
      | some policy => match policy.slug with | some slug => [slug] | none => []
      | none => []) ++
     rule.metadata.tags.getD [])

/-- Python dictionary assignment `d[k] = v`: overwrite the value in place when
the key exists, append the pair otherwise. -/
def update_key (kvs : List (String × Json)) (k : String) (v : Json) :
    List (String × Json) :=
  if kvs.any (fun p => p.1 == k) then
    kvs.map (fun p => if p.1 == k then (k, v) else p)
  else kvs ++ [(k, v)]

/-- `_rule_to_sarif`: one SARIF rule descriptor.  The severity lookup result is
matched; its `none` arm models the `KeyError` raise and is unreachable because
the mapping covers every `RuleSeverity` value. -/
def rule_to_sarif (rule : Rule) : Json :=
  match rule_to_sarif_severity rule with
  | none => Json.null
  | some severity =>
    let tags := rule_to_sarif_tags rule
    let rule_json : List (String × Json) :=
      match rule.metadata.security_severity with
      | some security_severity =>
        [("id", Json.str rule.id),
         ("name", Json.str rule.id),
         ("shortDescription", Json.obj [("text", Json.str ("Semgrep Finding: " ++ rule.id))]),
         ("fullDescription", Json.obj [("text", Json.str rule.message)]),
         ("defaultConfiguration", Json.obj [("level", Json.str severity)]),
         ("properties", Json.obj
           [("precision", Json.str "very-high"),
            ("tags", Json.arr (tags.map Json.str)),
            ("security-severity", Json.str security_severity)])]
      | none =>
        [("id", Json.str rule.id),
         ("name", Json.str rule.id),
         ("shortDescription", Json.obj [("text", Json.str ("Semgrep Finding: " ++ rule.id))]),
         ("fullDescription", Json.obj [("text", Json.str rule.message)]),
         ("defaultConfiguration", Json.obj [("level", Json.str severity)]),
         ("properties", Json.obj
           [("precision", Json.str "very-high"),
            ("tags", Json.arr (tags.map Json.str))])]
    let references : List String := []
    let rule_json :=
      match rule.metadata.source with
      | some rule_url => update_key rule_json "helpUri" (Json.str rule_url)
      | none => rule_json
    let references :=
      references ++
        (match rule.metadata.source with
         | some rule_url => ["[Semgrep Rule](" ++ rule_url ++ ")"]
         | none => [])
    let references :=
      match rule.metadata.references with
      | some ref =>
        (match ref with
         | .list l => if l.isEmpty then references
                      else references ++ l.map (fun r => "[" ++ r ++ "](" ++ r ++ ")")
         | .str s => if s = "" then references
                     else references ++ ["[" ++ s ++ "](" ++ s ++ ")"])
      | none => references
    let rule_json :=
      if references.isEmpty then rule_json
      else
        let r := String.join (references.map
          (fun references_markdown => " - " ++ references_markdown ++ "\n"))
        update_key rule_json "help" (Json.obj
          [("text", Json.str rule.message),
           ("markdown", Json.str
             (rule.message ++ "\n\n<b>References:</b>\n" ++ r))])
    let rule_json :=
      match rule.metadata.shortDescription with
      | some rule_short_description =>
        if rule_short_description = "" then rule_json
        else update_key rule_json "shortDescription"
          (Json.obj [("text", Json.str rule_short_description)])
      | none => rule_json
    let rule_json :=
      match rule.metadata.help with
      | some rule_help_text =>
        if rule_help_text = "" then rule_json
        else update_key rule_json "help" (Json.obj [("text", Json.str rule_help_text)])
      | none => rule_json
    Json.obj rule_json

/-- Modelled from the spec: `semgrep.error.Level` is not under `src/`; spec 4.4
says the level mapping covers exactly the two levels ERROR and WARN. -/
inductive Level where
  | ERROR : Level
  | WARN : Level
deriving DecidableEq, Repr

/-- The fields of `SemgrepError.to_dict()` read by the notification serializer
(the error class is not under `src/`; spec 4.4 lists kind, level and the
message fields in preference order). -/
structure SemgrepError where
  type_ : String
  level : Level
  message : Option String
  long_msg : Option String
  short_msg : Option String

/-- `_semgrep_error_to_sarif_notification`: descriptor id, message text (first
present among `message`, `long_msg`, `short_msg`, else empty) and the mapped
level. -/
def semgrep_error_to_sarif_notification (error : SemgrepError) : Json :=
  let level := match error.level with
    | Level.ERROR => "error"
    | Level.WARN => "warning"
  let message :=
    match error.message with
    | some m => m
    | none =>
      match error.long_msg with
      | some m => m
      | none => error.short_msg.getD ""
  Json.obj
    [("descriptor", Json.obj [("id", Json.str error.type_)]),
     ("message", Json.obj [("text", Json.str message)]),
     ("level", Json.str level)]

/-- `SarifFormatter.format`: the whole SARIF document, serialized with sorted
keys and 2-space indentation.  `extra["dataflow_traces"]` is the
`dataflow_traces` boolean and `__VERSION__` the `version` string; the unused
`cli_output_extra` and `is_ci_invocation` parameters are omitted. -/
def format (fs : FileSystem) (version : String) (rules : List Rule)
    (rule_matches : List RuleMatch)
    (semgrep_structured_errors : List SemgrepError)
    (dataflow_traces : Bool) : String :=
  let output_dict := Json.obj
    [("$schema", Json.str
       "https://docs.oasis-open.org/sarif/sarif/v2.1.0/os/schemas/sarif-schema-2.1.0.json"),
     ("version", Json.str "2.1.0"),
     ("runs", Json.arr
       [Json.obj
         [("tool", Json.obj
            [("driver", Json.obj
               [("name", Json.str "semgrep"),
                ("semanticVersion", Json.str version),
                ("rules", Json.arr (rules.map rule_to_sarif))])]),
          ("results", Json.arr (rule_matches.map
            (fun rule_match => rule_match_to_sarif fs rule_match dataflow_traces))),
          ("invocations", Json.arr
            [Json.obj
              [("executionSuccessful", Json.bool true),
               ("toolExecutionNotifications", Json.arr
                 (semgrep_structured_errors.map semgrep_error_to_sarif_notification))]])]])]
  Json.dumps 0 output_dict

/-- The location list inside the (single) thread flow returned by
`_dataflow_trace_to_thread_flows_sarif`, `[]` when there is none. -/
def thread_flow_locations_list (o : Option (List Json)) : List Json :=
  match o with
  | some (Json.obj [("locations", Json.arr locations)] :: _) => locations
  | _ => []

/-- The assembled thread-flow location list of a match. -/
def assembled_locations (fs : FileSystem) (rule_match : RuleMatch) : List Json :=
  thread_flow_locations_list (dataflow_trace_to_thread_flows_sarif fs rule_match)

/-- The `startLine` of a thread-flow location record. -/
def location_start_line (j : Json) : Option Json :=
  j.getPath ["location", "physicalLocation", "region", "startLine"]

/-- The human-readable message text of a thread-flow location record. -/
def location_message_text (j : Json) : Option Json :=
  j.getPath ["location", "message", "text"]

/-- The artifact-location uri of a thread-flow location record. -/
def location_uri (j : Json) : Option Json :=
  j.getPath ["location", "physicalLocation", "artifactLocation", "uri"]

/-- The `nestingLevel` of a thread-flow location record. -/
def location_nesting_level (j : Json) : Option Json :=
  j.getKey "nestingLevel"

/-- A file system for the worked examples: every file has the single line
`"x\n"`. -/
def fs_ex : FileSystem := fun _ => ["x\n"]

/-- Location `A` of the synthetic trace of the thread-flow ordering claim. -/
def locA : Location := ⟨"a.py", ⟨2, 1⟩, ⟨2, 3⟩⟩

/-- Location `B` of the synthetic trace. -/
def locB : Location := ⟨"b.py", ⟨5, 1⟩, ⟨5, 3⟩⟩

/-- Location `C` of the synthetic trace. -/
def locC : Location := ⟨"c.py", ⟨8, 1⟩, ⟨8, 3⟩⟩

/-- Location `D` of the synthetic trace. -/
def locD : Location := ⟨"d.py", ⟨11, 1⟩, ⟨11, 3⟩⟩

/-- Location `E` of the synthetic trace. -/
def locE : Location := ⟨"e.py", ⟨14, 1⟩, ⟨14, 3⟩⟩

/-- The synthetic trace Source = Leaf(A), intermediate = [B],
Sink = Call(inner = Leaf(C), vars = [D], terminal = Leaf(E)); the source and
sink are wrapped in `CliMatchCallTrace` as the output API types prescribe. -/
def trace_c1 : CliMatchDataflowTrace :=
  { taint_source := some (.CliMatchCallTrace (.CliLoc locA "srcA"))
    intermediate_vars := some [⟨locB, "ivB"⟩]
    taint_sink := some (.CliMatchCallTrace
      (.CliCall locE "contE" [⟨locD, "ivD"⟩]
        (.CliMatchCallTrace (.CliLoc locC "cC")))) }

/-- The enclosing match of the synthetic trace. -/
def rm_c1 : RuleMatch :=
  { rule_id := "rid", message := "msg", path := "m.py"
    start := ⟨1, 1⟩, end_ := ⟨1, 10⟩
    lines := ["MATCHLINE\n"]
    match_based_id := "mid"
    dataflow_trace := some trace_c1
    is_ignored := false, fixed_lines := none, exposure_type := none }

/-- Project a JSON number out of an optional JSON value. -/
def json_num : Option Json → Option Int
  | some (Json.num n) => some n
  | _ => none

/-- Project a JSON string out of an optional JSON value. -/
def json_str : Option Json → Option String
  | some (Json.str s) => some s
  | _ => none

/-- A file system holding a seven-line file, for the snippet-extractor
examples. -/
def fs_c2 : FileSystem :=
  fun _ => ["l1\n", "l2\n", "l3\n", "l4\n", "l5\n", "l6\n", "l7\n"]

/-- A multi-line span (lines 3-4) inside the seven-line file. -/
def loc_c2 : Location := ⟨"f.py", ⟨3, 1⟩, ⟨4, 2⟩⟩

/-- A trace with a source and intermediate variable but no sink. -/
def trace_c9 : CliMatchDataflowTrace :=
  { taint_source := some (.CliMatchCallTrace (.CliLoc locA "srcA"))
    intermediate_vars := some [⟨locB, "ivB"⟩]
    taint_sink := none }

/-- The enclosing match of the sink-less trace. -/
def rm_c9 : RuleMatch := { rm_c1 with dataflow_trace := some trace_c9 }

/-- The strings held by a string-or-list metadata value. -/
def str_or_list_elems : StrOrList → List String
  | .str s => [s]
  | .list l => l

/-- A rule whose metadata carries only a CWE list. -/
def rule_c4 : Rule :=
  { id := "r", message := "m", severity := RuleSeverity.ERROR
    metadata :=
      { cwe := some (.list ["CWE-79"]), owasp := none, confidence := none
        semgrep_policy := none, tags := none, security_severity := none
        source := none, references := none, shortDescription := none
        help := none } }

/-- Claim C2: the claim asserts the extended-snippet contract also for
multi-line spans, but on the span (3,1)-(4,2) of a seven-line file the code
reads its before-text from lines `[start.line - 2, end.line - 1]`, so line 3
of the span is emitted twice and both highlight offsets are shifted by the
length of the duplicated text; the claimed contract yields the 2 context
lines, the span and 2 trailing lines with offsets 7 and 8. -/
theorem generate_taint_snippet_multiline_divergence :
    generate_taint_snippet fs_c2 loc_c2 = ("l1\nl2\nl3\nl3\nl4\nl5\nl6", 10, 11) ∧
    claimed_taint_snippet fs_c2 loc_c2 = ("l1\nl2\nl3\nl4\nl5\nl6", 7, 8) ∧
    generate_taint_snippet fs_c2 loc_c2 ≠ claimed_taint_snippet fs_c2 loc_c2 := by
  refine ⟨rfl, rfl, ?_⟩
  decide

/-- Claim C1 counterexample: in the assembled sequence [A, B, E, D, C] of the
synthetic trace, the entry of the terminal leaf E (index 2, located at
e.py:14) carries the Propagator role, its own snippet and nesting level 0 --
not nesting level 1 with the match lines, as the claim states. -/
theorem thread_flow_terminal_leaf_not_sink :
    json_str (((assembled_locations fs_ex rm_c1)[2]?).bind location_message_text) =
      some "Propagator : \x27contE\x27 @ \x27e.py:14\x27" ∧
    json_num (((assembled_locations fs_ex rm_c1)[2]?).bind location_nesting_level) =
      some 0 ∧
    json_num (((assembled_locations fs_ex rm_c1)[2]?).bind location_nesting_level) ≠
      some 1 := by
  refine ⟨rfl, rfl, ?_⟩
  decide

/-- Claim C1 (amended): for the synthetic trace Source = Leaf(A),
intermediate = [B], Sink = Call(inner = Leaf(C), vars = [D],
terminal = Leaf(E)), the assembled location order is [A, B, E, D, C]; the
sink's inner leaf C carries nesting level 1 and a message snippet equal to the
match's own joined lines, while E, D and B carry the Propagator role at
nesting level 0. -/
theorem thread_flow_ordering_amended :
    (assembled_locations fs_ex rm_c1).map (fun j => json_num (location_start_line j)) =
      [some 2, some 5, some 14, some 11, some 8] ∧
    (assembled_locations fs_ex rm_c1).map (fun j => json_num (location_nesting_level j)) =
      [some 0, some 0, some 0, some 0, some 1] ∧
    (assembled_locations fs_ex rm_c1).map (fun j => json_str (location_message_text j)) =
      [some "Source: \x27srcA\x27 @ \x27a.py:2\x27",
       some "Propagator : \x27ivB\x27 @ \x27b.py:5\x27",
       some "Propagator : \x27contE\x27 @ \x27e.py:14\x27",
       some "Propagator : \x27ivD\x27 @ \x27d.py:11\x27",
       some "Sink: \x27MATCHLINE\x27 @ \x27c.py:8\x27"] :=
  ⟨rfl, rfl, rfl⟩

/-- Claim C5: the severity mapping is total and exhaustive over the three
RuleSeverity values, yielding note for INFO, warning for WARNING and error for
ERROR; the lookup never falls through to the KeyError (`none`) outcome. -/
theorem rule_to_sarif_severity_total (rule : Rule) :
    rule_to_sarif_severity rule =
      some (match rule.severity with
            | RuleSeverity.INFO => "note"
            | RuleSeverity.WARNING => "warning"
            | RuleSeverity.ERROR => "error") := by
  rcases rule with ⟨_, _, sev, _⟩
  cases sev <;> rfl

/-- Claim C4 counterexample: with only CWE metadata present the code emits the
extra tag "security", so the tag list is not the claimed union of CWE, OWASP,
confidence, policy and free-form tags alone. -/
theorem rule_tags_security_counterexample :
    rule_to_sarif_tags rule_c4 = ["CWE-79", "security"] ∧
    claimed_rule_tags rule_c4 = ["CWE-79"] ∧
    rule_to_sarif_tags rule_c4 ≠ claimed_rule_tags rule_c4 := by
  refine ⟨?_, ?_, ?_⟩ <;> decide

theorem create_dict_props (fs : FileSystem) (var_type snippet : String)
    (location : Location) (rule_match : RuleMatch) (nesting_level : Int) :
    location_uri
        (create_sarif_location_dict fs var_type snippet location rule_match nesting_level) =
      some (Json.str rule_match.path) ∧
    location_message_text
        (create_sarif_location_dict fs var_type snippet location rule_match nesting_level) =
      some (Json.str (var_type ++ ": \x27" ++ py_strip snippet ++ "\x27 @ \x27" ++
        location.path ++ ":" ++ toString location.start.line ++ "\x27")) ∧
    (nesting_level ≠ -1 →
      location_nesting_level
          (create_sarif_location_dict fs var_type snippet location rule_match nesting_level) =
        some (Json.num nesting_level)) ∧
    (nesting_level = -1 →
      location_nesting_level
          (create_sarif_location_dict fs var_type snippet location rule_match nesting_level) =
        none) := by
  by_cases h : nesting_level ≠ -1
  · simp only [create_sarif_location_dict, if_pos h]
    exact ⟨rfl, rfl, fun _ => rfl, fun he => absurd he h⟩
  · simp only [create_sarif_location_dict, if_neg h]
    exact ⟨rfl, rfl, fun hne => absurd (not_not.mp h) hne, fun _ => rfl⟩

theorem rec_mem_props (fs : FileSystem) (rm : RuleMatch) (var_type : String)
    (t : TaintObj) :
    ∀ j ∈ rec_taint_obj_to_thread_flow_locations_sarif fs var_type t rm,
      location_uri j = some (Json.str rm.path) ∧
      (location_nesting_level j = some (Json.num 0) ∨
       location_nesting_level j = some (Json.num 1)) := by
  induction t generalizing var_type with
  | CliMatchCallTrace value ih =>
    intro j hj
    exact ih var_type j (by simpa [rec_taint_obj_to_thread_flow_locations_sarif] using hj)
  | CliLoc location content =>
    intro j hj
    simp only [rec_taint_obj_to_thread_flow_locations_sarif, List.mem_singleton] at hj
    subst hj
    by_cases h : py_lower var_type = "sink"
    · simp only [if_pos h]
      exact ⟨(create_dict_props fs var_type _ location rm 1).1,
        Or.inr ((create_dict_props fs var_type _ location rm 1).2.2.1 (by decide))⟩
    · simp only [if_neg h]
      exact ⟨(create_dict_props fs var_type _ location rm 0).1,
        Or.inl ((create_dict_props fs var_type _ location rm 0).2.2.1 (by decide))⟩
  | CliCall location content intermediate_vars call_trace ih =>
    intro j hj
    simp only [rec_taint_obj_to_thread_flow_locations_sarif, List.append_assoc,
      List.mem_append, List.mem_map, List.mem_singleton] at hj
    rcases hj with hj | hj | hj
    · exact ih var_type j hj
    · rcases hj with ⟨iv, _, hiv⟩
      subst hiv
      unfold taint_obj_intermediate_vars_to_thread_flow_locations_sarif
      exact ⟨(create_dict_props fs _ _ _ rm 0).1,
        Or.inl ((create_dict_props fs _ _ _ rm 0).2.2.1 (by decide))⟩
    · subst hj
      simp only [if_neg (show ¬ py_lower "Propagator " = "sink" by decide)]
      exact ⟨(create_dict_props fs _ _ location rm 0).1,
        Or.inl ((create_dict_props fs _ _ location rm 0).2.2.1 (by decide))⟩

theorem rec_taint_ne_nil (fs : FileSystem) (var_type : String) (t : TaintObj)
    (rm : RuleMatch) :
    rec_taint_obj_to_thread_flow_locations_sarif fs var_type t rm ≠ [] := by
  induction t generalizing var_type with
  | CliMatchCallTrace value ih =>
    simpa [rec_taint_obj_to_thread_flow_locations_sarif] using ih var_type
  | CliLoc location content =>
    simp [rec_taint_obj_to_thread_flow_locations_sarif]
  | CliCall location content intermediate_vars call_trace ih =>
    simp [rec_taint_obj_to_thread_flow_locations_sarif]

theorem assembled_mem_props (fs : FileSystem) (rm : RuleMatch) :
    ∀ j ∈ assembled_locations fs rm,
      location_uri j = some (Json.str rm.path) ∧
      (location_nesting_level j = some (Json.num 0) ∨
       location_nesting_level j = some (Json.num 1)) := by
  intro j hj
  unfold assembled_locations dataflow_trace_to_thread_flows_sarif at hj
  cases hdt : rm.dataflow_trace with
  | none => simp [hdt, thread_flow_locations_list] at hj
  | some dt =>
    simp only [hdt, thread_flow_locations_list, List.append_assoc, List.mem_append,
      List.mem_reverse] at hj
    rcases hj with hj | hj | hj
    · cases hts : dt.taint_source with
      | none => simp [hts] at hj
      | some ts =>
        have hsrc : taint_source_to_thread_flow_locations_sarif fs rm =
            some (rec_taint_obj_to_thread_flow_locations_sarif fs "Source" ts rm) := by
          simp [taint_source_to_thread_flow_locations_sarif, hdt, hts]
        simp only [hts, hsrc, Option.getD_some] at hj
        exact rec_mem_props fs rm "Source" ts j hj
    · cases hivs : dt.intermediate_vars with
      | none => simp [hivs] at hj
      | some ivs =>
        by_cases he : ivs.isEmpty
        · simp [hivs, he] at hj
        · have hiv : intermediate_vars_to_thread_flow_locations_sarif fs rm =
              some (ivs.map (fun iv =>
                create_sarif_location_dict fs "Propagator " iv.content iv.location rm 0)) := by
            simp [intermediate_vars_to_thread_flow_locations_sarif, hdt, hivs, he]
          simp only [hivs, if_neg he, hiv, Option.getD_some, List.mem_map] at hj
          rcases hj with ⟨iv, _, hiv2⟩
          subst hiv2
          exact ⟨(create_dict_props fs _ _ _ rm 0).1,
            Or.inl ((create_dict_props fs _ _ _ rm 0).2.2.1 (by decide))⟩
    · cases hsk : dt.taint_sink with
      | none => simp [hsk] at hj
      | some sk =>
        simp only [hsk] at hj
        exact rec_mem_props fs rm "Sink" sk j hj

/-- Claim C8: every thread-flow location names the enclosing match's file path
as its artifactLocation uri, whatever file the step's own location lies in;
only the message text carries the step's own path (and line). -/
theorem thread_flow_location_uri_is_match_path :
    (∀ (fs : FileSystem) (var_type snippet : String) (location : Location)
       (rule_match : RuleMatch) (nesting_level : Int),
      location_uri (create_sarif_location_dict fs var_type snippet location
          rule_match nesting_level) = some (Json.str rule_match.path) ∧
      location_message_text (create_sarif_location_dict fs var_type snippet location
          rule_match nesting_level) =
        some (Json.str (var_type ++ ": \x27" ++ py_strip snippet ++ "\x27 @ \x27" ++
          location.path ++ ":" ++ toString location.start.line ++ "\x27"))) ∧
    (∀ (fs : FileSystem) (rm : RuleMatch) (i : Nat) (j : Json),
      (assembled_locations fs rm)[i]? = some j →
      location_uri j = some (Json.str rm.path)) :=
  ⟨fun fs vt s loc rm n => ⟨(create_dict_props fs vt s loc rm n).1,
      (create_dict_props fs vt s loc rm n).2.1⟩,
   fun fs rm _ j h => (assembled_mem_props fs rm j (List.getElem?_mem h)).1⟩

/-- Claim C8 witness: the first assembled location of the synthetic example,
whose own location lies in a.py, reports the match file m.py as its uri. -/
theorem thread_flow_location_uri_witness :
    (assembled_locations fs_ex rm_c1)[0]? =
      some (create_sarif_location_dict fs_ex "Source" "srcA" locA rm_c1 0) ∧
    location_uri (create_sarif_location_dict fs_ex "Source" "srcA" locA rm_c1 0) =
      some (Json.str rm_c1.path) :=
  ⟨rfl, thread_flow_location_uri_is_match_path.2 fs_ex rm_c1 0 _ rfl⟩

/-- Claim C10: the location builder omits `nestingLevel` at its sentinel
default of -1, but every location the taint translator assembles carries an
explicit nesting level of 0 or 1. -/
theorem assembled_nesting_level_explicit :
    (∀ (fs : FileSystem) (var_type snippet : String) (location : Location)
       (rule_match : RuleMatch),
      location_nesting_level
        (create_sarif_location_dict fs var_type snippet location rule_match (-1)) =
        none) ∧
    (∀ (fs : FileSystem) (rm : RuleMatch) (i : Nat) (j : Json),
      (assembled_locations fs rm)[i]? = some j →
      location_nesting_level j = some (Json.num 0) ∨
      location_nesting_level j = some (Json.num 1)) :=
  ⟨fun fs vt s loc rm => (create_dict_props fs vt s loc rm (-1)).2.2.2 rfl,
   fun fs rm _ j h => (assembled_mem_props fs rm j (List.getElem?_mem h)).2⟩

/-- Claim C10 witness: the first assembled location of the synthetic example
carries nesting level 0 or 1. -/
theorem assembled_nesting_level_witness :
    (assembled_locations fs_ex rm_c1)[0]? =
      some (create_sarif_location_dict fs_ex "Source" "srcA" locA rm_c1 0) ∧
    (location_nesting_level
        (create_sarif_location_dict fs_ex "Source" "srcA" locA rm_c1 0) =
      some (Json.num 0) ∨
     location_nesting_level
        (create_sarif_location_dict fs_ex "Source" "srcA" locA rm_c1 0) =
      some (Json.num 1)) :=
  ⟨rfl, assembled_nesting_level_explicit.2 fs_ex rm_c1 0 _ rfl⟩

/-- Claim C3: for a match with a dataflow trace and a taint source, the
assembled location list is non-empty and the code flow holds exactly one
thread-flow entry carrying that list next to the summary message; had the list
been empty, the code flow would have carried the summary message alone. -/
theorem codeflow_single_thread_flow (fs : FileSystem) (rm : RuleMatch)
    (dt : CliMatchDataflowTrace) (ts : TaintObj) (l : Location)
    (h1 : rm.dataflow_trace = some dt) (h2 : dt.taint_source = some ts)
    (h3 : taint_source_value_location ts = some l) :
    ∃ locs : List Json,
      dataflow_trace_to_thread_flows_sarif fs rm =
        some [Json.obj [("locations", Json.arr locs)]] ∧
      locs ≠ [] ∧
      dataflow_trace_to_codeflow_sarif fs rm = some (Json.obj
        [("message", Json.obj [("text", Json.str
           ("Untrusted dataflow from " ++ l.path ++ ":" ++ toString l.start.line ++
            " to " ++ rm.path ++ ":" ++ toString rm.start.line))]),
         ("threadFlows", Json.arr [Json.obj [("locations", Json.arr locs)]])]) ∧
      (locs = [] → dataflow_trace_to_codeflow_sarif fs rm = some (Json.obj
        [("message", Json.obj [("text", Json.str
           ("Untrusted dataflow from " ++ l.path ++ ":" ++ toString l.start.line ++
            " to " ++ rm.path ++ ":" ++ toString rm.start.line))])])) := by
  have hsrc : taint_source_to_thread_flow_locations_sarif fs rm =
      some (rec_taint_obj_to_thread_flow_locations_sarif fs "Source" ts rm) := by
    simp [taint_source_to_thread_flow_locations_sarif, h1, h2]
  obtain ⟨rest, htf⟩ : ∃ rest, dataflow_trace_to_thread_flows_sarif fs rm =
      some [Json.obj [("locations", Json.arr
        (rec_taint_obj_to_thread_flow_locations_sarif fs "Source" ts rm ++ rest))]] := by
    refine ⟨(match dt.intermediate_vars with
      | none => ([] : List Json)
      | some intermediate_vars =>
        if intermediate_vars.isEmpty then []
        else (intermediate_vars_to_thread_flow_locations_sarif fs rm).getD []) ++
      (match dt.taint_sink with
       | none => ([] : List Json)
       | some taint_sink =>
         rec_taint_obj_to_thread_flow_locations_sarif fs "Sink" taint_sink rm).reverse, ?_⟩
    simp only [dataflow_trace_to_thread_flows_sarif, h1, h2, hsrc, Option.getD_some,
      List.append_assoc]
  have hne : rec_taint_obj_to_thread_flow_locations_sarif fs "Source" ts rm ++ rest ≠ [] :=
    fun hembed => rec_taint_ne_nil fs "Source" ts rm (List.append_eq_nil.mp hembed).1
  refine ⟨_, htf, hne, ?_, fun hembed => absurd hembed hne⟩
  simp [dataflow_trace_to_codeflow_sarif, h1, h2, h3, htf]

/-- Claim C3 witness: the synthetic example match satisfies the hypotheses and
its code flow carries the single thread flow. -/
theorem codeflow_single_thread_flow_witness :
    rm_c1.dataflow_trace = some trace_c1 ∧
    trace_c1.taint_source = some (.CliMatchCallTrace (.CliLoc locA "srcA")) ∧
    taint_source_value_location (.CliMatchCallTrace (.CliLoc locA "srcA")) = some locA ∧
    (∃ locs : List Json,
      dataflow_trace_to_thread_flows_sarif fs_ex rm_c1 =
        some [Json.obj [("locations", Json.arr locs)]] ∧
      locs ≠ [] ∧
      dataflow_trace_to_codeflow_sarif fs_ex rm_c1 = some (Json.obj
        [("message", Json.obj [("text", Json.str
           ("Untrusted dataflow from " ++ locA.path ++ ":" ++ toString locA.start.line ++
            " to " ++ rm_c1.path ++ ":" ++ toString rm_c1.start.line))]),
         ("threadFlows", Json.arr [Json.obj [("locations", Json.arr locs)]])]) ∧
      (locs = [] → dataflow_trace_to_codeflow_sarif fs_ex rm_c1 = some (Json.obj
        [("message", Json.obj [("text", Json.str
           ("Untrusted dataflow from " ++ locA.path ++ ":" ++ toString locA.start.line ++
            " to " ++ rm_c1.path ++ ":" ++ toString rm_c1.start.line))])]))) :=
  ⟨rfl, rfl, rfl,
   codeflow_single_thread_flow fs_ex rm_c1 trace_c1 _ locA rfl rfl rfl⟩

/-- Claim C9: with a taint source present and the taint sink absent, assembly
still succeeds; the absent sink contributes zero locations and the thread flow
is the flattened source followed by the intermediate-variable locations. -/
theorem thread_flows_absent_sink (fs : FileSystem) (rm : RuleMatch)
    (dt : CliMatchDataflowTrace) (ts : TaintObj)
    (h1 : rm.dataflow_trace = some dt) (h2 : dt.taint_source = some ts)
    (h3 : dt.taint_sink = none) :
    dataflow_trace_to_thread_flows_sarif fs rm =
      some [Json.obj [("locations", Json.arr
        (rec_taint_obj_to_thread_flow_locations_sarif fs "Source" ts rm ++
         (intermediate_vars_to_thread_flow_locations_sarif fs rm).getD []))]] := by
  have hsrc : taint_source_to_thread_flow_locations_sarif fs rm =
      some (rec_taint_obj_to_thread_flow_locations_sarif fs "Source" ts rm) := by
    simp [taint_source_to_thread_flow_locations_sarif, h1, h2]
  have hiv : (match dt.intermediate_vars with
      | none => ([] : List Json)
      | some intermediate_vars =>
        if intermediate_vars.isEmpty then []
        else (intermediate_vars_to_thread_flow_locations_sarif fs rm).getD []) =
      (intermediate_vars_to_thread_flow_locations_sarif fs rm).getD [] := by
    cases hivs : dt.intermediate_vars with
    | none => simp [intermediate_vars_to_thread_flow_locations_sarif, h1, hivs]
    | some ivs =>
      by_cases he : ivs.isEmpty
      · simp [intermediate_vars_to_thread_flow_locations_sarif, h1, hivs, he]
      · simp [he]
  simp only [dataflow_trace_to_thread_flows_sarif, h1, h2, h3, hsrc, Option.getD_some,
    hiv, List.reverse_nil, List.append_nil]

/-- Claim C9 witness: the sink-less synthetic trace assembles into the source
location followed by the intermediate-variable location. -/
theorem thread_flows_absent_sink_witness :
    rm_c9.dataflow_trace = some trace_c9 ∧
    trace_c9.taint_source = some (.CliMatchCallTrace (.CliLoc locA "srcA")) ∧
    trace_c9.taint_sink = none ∧
    dataflow_trace_to_thread_flows_sarif fs_ex rm_c9 =
      some [Json.obj [("locations", Json.arr
        (rec_taint_obj_to_thread_flow_locations_sarif fs_ex "Source"
          (.CliMatchCallTrace (.CliLoc locA "srcA")) rm_c9 ++
         (intermediate_vars_to_thread_flow_locations_sarif fs_ex rm_c9).getD []))]] :=
  ⟨rfl, rfl, rfl,
   thread_flows_absent_sink fs_ex rm_c9 trace_c9 _ rfl rfl rfl⟩

/-- Claim C6: on a match with a populated dataflow trace, the result records
of the two toggle settings agree exactly up to the `codeFlows` key: erasing it
from the toggled-on record yields the toggled-off record, and the toggled-off
record never contains it. -/
theorem toggle_isolation (fs : FileSystem) (rm : RuleMatch)
    (h : rm.dataflow_trace.isSome = true) :
    Json.eraseKey (rule_match_to_sarif fs rm true) "codeFlows" =
      rule_match_to_sarif fs rm false ∧
    Json.getKey (rule_match_to_sarif fs rm false) "codeFlows" = none := by
  cases hcf : dataflow_trace_to_codeflow_sarif fs rm <;>
    cases hig : rm.is_ignored <;>
      cases hfix : rule_match_to_sarif_fix rm <;>
        simp only [rule_match_to_sarif, h, hcf, hig, hfix, Bool.and_self, Bool.true_and,
          Bool.false_and, if_true, if_false, Bool.and_true, Bool.and_false] <;>
        exact ⟨rfl, rfl⟩

/-- Claim C6 witness: the synthetic example match has a populated trace and
satisfies the toggle-isolation equations. -/
theorem toggle_isolation_witness :
    rm_c1.dataflow_trace.isSome = true ∧
    (Json.eraseKey (rule_match_to_sarif fs_ex rm_c1 true) "codeFlows" =
      rule_match_to_sarif fs_ex rm_c1 false ∧
     Json.getKey (rule_match_to_sarif fs_ex rm_c1 false) "codeFlows" = none) :=
  ⟨rfl, toggle_isolation fs_ex rm_c1 rfl⟩

set_option maxHeartbeats 2000000 in
/-- Claim C4 (amended): the serialized tag list is duplicate-free and sorted
lexicographically, and a string is a tag exactly when it is a CWE identifier,
the string "security" with CWE metadata present, an `OWASP-` tag, the
confidence tag, the policy slug, or a free-form metadata tag. -/
theorem rule_tags_sorted_set_union (rule : Rule) :
    List.Sorted py_str_le (rule_to_sarif_tags rule) ∧
    (rule_to_sarif_tags rule).Nodup ∧
    (∀ s : String, s ∈ rule_to_sarif_tags rule ↔
      ((∃ cwe, rule.metadata.cwe = some cwe ∧ s ∈ str_or_list_elems cwe) ∨
       (rule.metadata.cwe.isSome ∧ s = "security") ∨
       (∃ owasp, rule.metadata.owasp = some owasp ∧
          ∃ o ∈ str_or_list_elems owasp, "OWASP-" ++ o = s) ∨
       (∃ confidence, rule.metadata.confidence = some confidence ∧
          ¬confidence = "" ∧ s = confidence ++ " CONFIDENCE") ∨
       (∃ policy, rule.metadata.semgrep_policy = some policy ∧ policy.slug = some s) ∨
       s ∈ rule.metadata.tags.getD [])) := by
  refine ⟨List.sorted_insertionSort _ _,
    ((List.perm_insertionSort _ _).nodup_iff).mpr (List.nodup_dedup _), ?_⟩
  intro s
  unfold rule_to_sarif_tags sorted_set
  rw [List.mem_insertionSort, List.mem_dedup]
  rcases hcwe : rule.metadata.cwe with _ | (cs | cl) <;>
  rcases howasp : rule.metadata.owasp with _ | (os | ol) <;>
  rcases hconf : rule.metadata.confidence with _ | conf <;>
  rcases hpol : rule.metadata.semgrep_policy with _ | ⟨(_ | slug)⟩ <;>
  simp only [hcwe, howasp, hconf, hpol, str_or_list_elems, List.mem_append,
    List.nil_append, List.mem_singleton, List.mem_map, List.mem_cons,
    List.not_mem_nil, Option.isSome_some, Option.isSome_none, Option.some.injEq,
    SemgrepPolicy.mk.injEq, reduceCtorEq, exists_eq_left, false_and, true_and,
    and_false, and_true, exists_false, false_or, or_false, StrOrList.str.injEq,
    StrOrList.list.injEq] <;>
  (try split_ifs with hc) <;>
  aesop

theorem dumpsPairs_eq_map (ind : Nat) (kvs : List (String × Json)) :
    Json.dumpsPairs ind kvs = kvs.map (fun p => (p.1, Json.dumps ind p.2)) := by
  induction kvs with
  | nil => rfl
  | cons p ps ih =>
    cases p
    simp [Json.dumpsPairs, ih]

theorem sorted_strict_of_sorted_nodup_keys {l : List (String × String)}
    (hs : List.Sorted (fun p q : String × String => py_str_le p.1 q.1) l)
    (hn : (l.map Prod.fst).Nodup) :
    List.Sorted (fun p q : String × String => py_str_le p.1 q.1 ∧ p.1 ≠ q.1) l := by
  have hne : List.Pairwise (fun p q : String × String => p.1 ≠ q.1) l :=
    List.pairwise_map.mp hn
  exact hs.and hne

theorem sort_pairs_eq_of_perm {l1 l2 : List (String × String)}
    (hp : l1.Perm l2) (hn : (l1.map Prod.fst).Nodup) :
    sort_pairs l1 = sort_pairs l2 := by
  have hn2 : (l2.map Prod.fst).Nodup := ((hp.map Prod.fst).nodup_iff).mp hn
  have hk1 : ((sort_pairs l1).map Prod.fst).Nodup :=
    ((((List.perm_insertionSort _ l1)).map Prod.fst).nodup_iff).mpr hn
  have hk2 : ((sort_pairs l2).map Prod.fst).Nodup :=
    ((((List.perm_insertionSort _ l2)).map Prod.fst).nodup_iff).mpr hn2
  exact List.eq_of_perm_of_sorted
    (((List.perm_insertionSort _ l1).trans hp).trans (List.perm_insertionSort _ l2).symm)
    (sorted_strict_of_sorted_nodup_keys (List.sorted_insertionSort _ l1) hk1)
    (sorted_strict_of_sorted_nodup_keys (List.sorted_insertionSort _ l2) hk2)

theorem dumps_obj_key_perm (ind : Nat) {kvs kvs' : List (String × Json)}
    (hp : kvs.Perm kvs') (hn : (kvs.map Prod.fst).Nodup) :
    Json.dumps ind (Json.obj kvs) = Json.dumps ind (Json.obj kvs') := by
  have hperm : (Json.dumpsPairs (ind + 2) kvs).Perm (Json.dumpsPairs (ind + 2) kvs') := by
    rw [dumpsPairs_eq_map, dumpsPairs_eq_map]
    exact hp.map _
  have hkeys : ((Json.dumpsPairs (ind + 2) kvs).map Prod.fst).Nodup := by
    rw [dumpsPairs_eq_map, List.map_map]
    exact hn
  have hsort := sort_pairs_eq_of_perm hperm hkeys
  have hempty : (Json.dumpsPairs (ind + 2) kvs).isEmpty =
      (Json.dumpsPairs (ind + 2) kvs').isEmpty := by
    cases h1 : Json.dumpsPairs (ind + 2) kvs with
    | nil =>
      rw [h1] at hperm
      rw [List.Perm.eq_nil hperm.symm]
    | cons x xs =>
      rw [h1] at hperm
      cases h2 : Json.dumpsPairs (ind + 2) kvs' with
      | nil => rw [h2] at hperm; exact absurd (List.Perm.eq_nil hperm) (by simp)
      | cons y ys => rfl
  simp only [Json.dumps]
  rw [hsort, hempty]

/-- Claim C7: formatting is deterministic.  The formatter is a function of its
inputs (file contents included), so repeated invocations agree byte for byte;
moreover the serialization emits object keys in sorted order -- rendering is
invariant under any reordering of the (distinct) keys of an object -- and
indents every nesting level by two spaces, which is what makes the byte output
independent of dictionary insertion order. -/
theorem format_deterministic :
    (∀ (fs : FileSystem) (version : String) (rules : List Rule)
       (rule_matches : List RuleMatch) (semgrep_structured_errors : List SemgrepError)
       (dataflow_traces : Bool),
      format fs version rules rule_matches semgrep_structured_errors dataflow_traces =
      format fs version rules rule_matches semgrep_structured_errors dataflow_traces) ∧
    (∀ (ind : Nat) (kvs kvs' : List (String × Json)), kvs.Perm kvs' →
      (kvs.map Prod.fst).Nodup →
      Json.dumps ind (Json.obj kvs) = Json.dumps ind (Json.obj kvs')) :=
  ⟨fun _ _ _ _ _ _ => rfl, fun ind _ _ hp hn => dumps_obj_key_perm ind hp hn⟩

/-- Claim C7 witness: two key orders of the same two-key object render to the
same bytes. -/
theorem format_deterministic_witness :
    ([("b", Json.null), ("a", Json.bool true)] : List (String × Json)).Perm
      [("a", Json.bool true), ("b", Json.null)] ∧
    ((([("b", Json.null), ("a", Json.bool true)] : List (String × Json)).map
        Prod.fst).Nodup) ∧
    Json.dumps 0 (Json.obj [("b", Json.null), ("a", Json.bool true)]) =
      Json.dumps 0 (Json.obj [("a", Json.bool true), ("b", Json.null)]) :=
  ⟨List.Perm.swap _ _ _, by decide,
   format_deterministic.2 0 _ _ (List.Perm.swap _ _ _) (by decide)⟩

end SarifFormatter
